import Mathlib

/-!
# faas-flow MinIO data store: a shallow embedding of `minio.go`

The adapter of `minio.go` is translated function by function.

* Go `string` and `[]byte` values are modelled by Lean `String`; the
  conversions `[]byte(value)` and `string(data)` copy the bytes unchanged and
  are therefore the identity here.
* A Go `error` is modelled by its message, `nil` by `none`.
* `fmt.Sprintf` / `fmt.Errorf` are modelled by `Sprintf`, which interprets the
  `%s` verb, the only verb the source uses.
* The process environment, the file system and the library functions
  `path.Join`, `strings.TrimSpace` and `minio.New` are fields of `Platform`.
* The methods of `*minio.Client` the adapter calls are fields of `MinioAPI`,
  acting on an abstract state of the remote object store.  The adapter reaches
  them only through `Remote.MakeBucket`, `Remote.PutObject`,
  `Remote.GetObject`, `Remote.RemoveObject` and `Remote.RemoveBucket`, each of
  which runs the method and records the call with the arguments it was given.
-/

namespace FaasFlowMinio

/-! ## `fmt.Sprintf` restricted to the `%s` verb -/

/-- Expansion of a format string: every `%s` consumes the next operand, which
is copied without being scanned again; all other characters are copied.  (In
the source every format string has exactly as many `%s` as operands, so the
cases of a `%s` without operand, copied literally here, and of operands left
over, dropped here, do not arise.) -/
def sprintfAux : List Char → List String → List Char
  | '%' :: 's' :: rest, a :: args => a.data ++ sprintfAux rest args
  | c :: rest, args => c :: sprintfAux rest args
  | [], _ => []

/-- The function `fmt.Sprintf` for format strings whose only verb is `%s`. -/
def Sprintf (format : String) (args : List String) : String :=
  ⟨sprintfAux format.data args⟩

/-! ## The platform: environment, secret files, library functions -/

/-- Go-side client handle built by `minio.New(endpoint, accessKeyID,
secretAccessKey, secure)`. -/
structure Client where
  endpoint : String
  accessKeyID : String
  secretAccessKey : String
  secure : Bool
  deriving DecidableEq, Repr

/-- What the adapter reads from its surroundings at construction time. -/
structure Platform where
  /-- The function `os.LookupEnv`: `none` when the variable is unset. -/
  LookupEnv : String → Option String
  /-- The function `ioutil.ReadFile`: the content or the read error. -/
  ReadFile : String → Except String String
  /-- The function `path.Join` of two elements. -/
  Join : String → String → String
  /-- The function `strings.TrimSpace`. -/
  TrimSpace : String → String
  /-- The function `minio.New`: a client or the construction error. -/
  New : String → String → String → Bool → Except String Client

/-- The function `os.Getenv`: the value, or the empty string when unset. -/
def Platform.Getenv (P : Platform) (name : String) : String :=
  (P.LookupEnv name).getD ""

/-! ## The object-store client -/

/-- Result of `ioutil.ReadAll` on the `*minio.Object` that `GetObject` returns:
the bytes read and the error, if any, met while reading. -/
structure Object where
  data : String
  readErr : Option String
  deriving DecidableEq, Repr

/-- The methods of `*minio.Client` used by the adapter, over a state `σ` of
the remote store.  Each takes the receiver first and returns the error (or the
object) together with the new remote state. -/
structure MinioAPI (σ : Type) where
  MakeBucket : Client → String → String → σ → Option String × σ
  PutObject : Client → String → String → String → Nat → σ → Option String × σ
  GetObject : Client → String → String → σ → Except String Object × σ
  RemoveObject : Client → String → String → σ → Option String × σ
  RemoveBucket : Client → String → σ → Option String × σ

/-- One call made on the client, with its arguments. -/
inductive Call where
  | MakeBucket (bucketName location : String)
  | PutObject (bucketName objectName data : String) (size : Nat)
  | GetObject (bucketName objectName : String)
  | RemoveObject (bucketName objectName : String)
  | RemoveBucket (bucketName : String)
  deriving DecidableEq, Repr

/-- The remote store together with the method calls made on the client so
far (calls of the library, whether or not the library goes on to send a
request to the store). -/
structure Remote (σ : Type) where
  state : σ
  calls : List Call

/-- A call of `client.MakeBucket(bucketName, location)`: the answer of the
method, the state it leaves and the call recorded. -/
def Remote.MakeBucket {σ : Type} (w : Remote σ) (api : MinioAPI σ) (client : Client)
    (bucketName location : String) : Option String × Remote σ :=
  ((api.MakeBucket client bucketName location w.state).1,
    ⟨(api.MakeBucket client bucketName location w.state).2,
      w.calls ++ [Call.MakeBucket bucketName location]⟩)

/-- A call of `client.PutObject(bucketName, objectName, reader, size, opts)`. -/
def Remote.PutObject {σ : Type} (w : Remote σ) (api : MinioAPI σ) (client : Client)
    (bucketName objectName data : String) (size : Nat) : Option String × Remote σ :=
  ((api.PutObject client bucketName objectName data size w.state).1,
    ⟨(api.PutObject client bucketName objectName data size w.state).2,
      w.calls ++ [Call.PutObject bucketName objectName data size]⟩)

/-- A call of `client.GetObject(bucketName, objectName, opts)`. -/
def Remote.GetObject {σ : Type} (w : Remote σ) (api : MinioAPI σ) (client : Client)
    (bucketName objectName : String) : Except String Object × Remote σ :=
  ((api.GetObject client bucketName objectName w.state).1,
    ⟨(api.GetObject client bucketName objectName w.state).2,
      w.calls ++ [Call.GetObject bucketName objectName]⟩)

/-- A call of `client.RemoveObject(bucketName, objectName)`. -/
def Remote.RemoveObject {σ : Type} (w : Remote σ) (api : MinioAPI σ) (client : Client)
    (bucketName objectName : String) : Option String × Remote σ :=
  ((api.RemoveObject client bucketName objectName w.state).1,
    ⟨(api.RemoveObject client bucketName objectName w.state).2,
      w.calls ++ [Call.RemoveObject bucketName objectName]⟩)

/-- A call of `client.RemoveBucket(bucketName)`. -/
def Remote.RemoveBucket {σ : Type} (w : Remote σ) (api : MinioAPI σ) (client : Client)
    (bucketName : String) : Option String × Remote σ :=
  ((api.RemoveBucket client bucketName w.state).1,
    ⟨(api.RemoveBucket client bucketName w.state).2,
      w.calls ++ [Call.RemoveBucket bucketName]⟩)

/-! ## The store handle and its operations -/

/-- The struct `MinioDataStore`; a nil `minioClient` is `none`. -/
structure MinioDataStore where
  region : String
  bucketName : String
  flowName : String
  requestId : String
  minioClient : Option Client
  deriving DecidableEq, Repr

/-- Outcome of a method: the returned value, the handle after the call (the
receiver is a pointer) and the remote store after the call. -/
structure Outcome (σ : Type) (α : Type) where
  ret : α
  store : MinioDataStore
  remote : Remote σ

/-- The function `tlsEnabled`. -/
def tlsEnabled (P : Platform) : Bool :=
  let connection := P.Getenv "s3_tls"
  if connection == "true" || connection == "1" then
    true
  else
    false

/-- The function `regionName`. -/
def regionName (P : Platform) : String :=
  let (regionName, exist) :=
    match P.LookupEnv "s3_region" with
    | some v => (v, true)
    | none => ("", false)
  let regionName :=
    if exist == false || regionName.utf8ByteSize == 0 then "us-east-1" else regionName
  regionName

/-- The function `getPath`. -/
def getPath (bucket key : String) : String :=
  let fileName := Sprintf "%s.value" [key]
  Sprintf "%s/key/%s" [bucket, fileName]

/-- The function `readSecret`: the pair of Go results `(val, err)`. -/
def readSecret (P : Platform) (key : String) : String × Option String :=
  let basePath := "/var/openfaas/secrets/"
  let basePath :=
    if (P.Getenv "secret_mount_path").utf8ByteSize > 0 then
      P.Getenv "secret_mount_path"
    else basePath
  let readPath := P.Join basePath key
  match P.ReadFile readPath with
  | .error readErr =>
    ("", some (Sprintf "unable to read secret: %s, error: %s" [readPath, readErr]))
  | .ok secretBytes =>
    let val := P.TrimSpace secretBytes
    (val, none)

/-- The function `connectToMinio`.  As in the source, the second `:=`
assignment re-uses the variable `err` of the first. -/
def connectToMinio (P : Platform) (_region : String) : Except String Client :=
  let endpoint := P.Getenv "s3_url"
  let tlsEnabled := tlsEnabled P
  let (secretKey, _err) := readSecret P "s3-secret-key"
  let (accessKey, err) := readSecret P "s3-access-key"
  match err with
  | some e => .error e
  | none => P.New endpoint accessKey secretKey tlsEnabled

/-- The function `GetMinioDataStore`. -/
def GetMinioDataStore (P : Platform) : Except String MinioDataStore :=
  let minioDataStore : MinioDataStore :=
    { region := "", bucketName := "", flowName := "", requestId := "", minioClient := none }
  let minioDataStore := { minioDataStore with region := regionName P }
  match connectToMinio P minioDataStore.region with
  | .error connectErr =>
    .error (Sprintf "Failed to initialize minio, error %s" [connectErr])
  | .ok minioClient =>
    let minioDataStore := { minioDataStore with minioClient := some minioClient }
    .ok minioDataStore

variable {σ : Type}

/-- Method `Init`. -/
def Init (api : MinioAPI σ) (minioStore : MinioDataStore) (flowName requestId : String)
    (w : Remote σ) : Outcome σ (Option String) :=
  match minioStore.minioClient with
  | none =>
    ⟨some (Sprintf "minio client not initialized, use GetMinioDataStore()" []), minioStore, w⟩
  | some client =>
    let minioStore := { minioStore with flowName := flowName }
    let minioStore := { minioStore with requestId := requestId }
    let bucketName := Sprintf "faasflow-%s-%s" [flowName, requestId]
    let minioStore := { minioStore with bucketName := bucketName }
    let (err, w) := w.MakeBucket api client bucketName minioStore.region
    match err with
    | some e =>
      ⟨some (Sprintf "error creating: %s, error: %s" [minioStore.bucketName, e]), minioStore, w⟩
    | none => ⟨none, minioStore, w⟩

/-- Method `Set`. -/
def Set (api : MinioAPI σ) (minioStore : MinioDataStore) (key value : String)
    (w : Remote σ) : Outcome σ (Option String) :=
  match minioStore.minioClient with
  | none =>
    ⟨some (Sprintf "minio client not initialized, use GetMinioDataStore()" []), minioStore, w⟩
  | some client =>
    let fullPath := getPath minioStore.bucketName key
    let reader := value
    let (err, w) :=
      w.PutObject api client minioStore.bucketName fullPath reader reader.utf8ByteSize
    match err with
    | some e => ⟨some (Sprintf "error writing: %s, error: %s" [fullPath, e]), minioStore, w⟩
    | none => ⟨none, minioStore, w⟩

/-- Method `Get`: the pair of Go results `(value, err)`.  The error of
`ioutil.ReadAll` is dropped, as in the source. -/
def Get (api : MinioAPI σ) (minioStore : MinioDataStore) (key : String)
    (w : Remote σ) : Outcome σ (String × Option String) :=
  match minioStore.minioClient with
  | none =>
    ⟨("", some (Sprintf "minio client not initialized, use GetMinioDataStore()" [])),
      minioStore, w⟩
  | some client =>
    let fullPath := getPath minioStore.bucketName key
    let (obj, w) := w.GetObject api client minioStore.bucketName fullPath
    match obj with
    | .error e => ⟨("", some (Sprintf "error reading: %s, error: %s" [fullPath, e])), minioStore, w⟩
    | .ok obj =>
      let data := obj.data
      ⟨(data, none), minioStore, w⟩

/-- Method `Del`. -/
def Del (api : MinioAPI σ) (minioStore : MinioDataStore) (key : String)
    (w : Remote σ) : Outcome σ (Option String) :=
  match minioStore.minioClient with
  | none =>
    ⟨some (Sprintf "minio client not initialized, use GetMinioDataStore()" []), minioStore, w⟩
  | some client =>
    let fullPath := getPath minioStore.bucketName key
    let (err, w) := w.RemoveObject api client minioStore.bucketName fullPath
    match err with
    | some e => ⟨some (Sprintf "error removing: %s, error: %s" [fullPath, e]), minioStore, w⟩
    | none => ⟨none, minioStore, w⟩

/-- Method `Cleanup`.  There is no nil check: on a nil client the method call
dereferences a nil pointer and the program panics, which is `none` here. -/
def Cleanup (api : MinioAPI σ) (minioStore : MinioDataStore)
    (w : Remote σ) : Option (Outcome σ (Option String)) :=
  match minioStore.minioClient with
  | none => none
  | some client =>
    let (err, w) := w.RemoveBucket api client minioStore.bucketName
    match err with
    | some e =>
      some ⟨some (Sprintf "error removing: %s, error: %s" [minioStore.bucketName, e]),
        minioStore, w⟩
    | none => some ⟨none, minioStore, w⟩

/-! ## A map model of the object-store client

The client library and the object store are outside the repository.  For the
properties that depend on what the client answers they are modelled together:
the client first validates the names it is given, as the library does before
it sends any request, and the store is a finite map from (bucket, object name)
to content, together with the set of existing buckets.  `GetObject` is lazy, as
in the library: for valid names the call itself succeeds and a missing object
shows only as the error of reading the returned object. -/

/-- The function `unicode.IsSpace`. -/
def unicodeIsSpace (c : Char) : Bool :=
  c == '\t' || c == '\n' || c.val == 0x0B || c.val == 0x0C || c == '\r' || c == ' ' ||
    c.val == 0x85 || c.val == 0xA0 || c.val == 0x1680 ||
    (0x2000 ≤ c.val && c.val ≤ 0x200A) || c.val == 0x2028 || c.val == 0x2029 ||
    c.val == 0x202F || c.val == 0x205F || c.val == 0x3000

/-- ASCII letters and digits, the class `[A-Za-z0-9]`. -/
def isAlnum (c : Char) : Bool :=
  ('a' ≤ c && c ≤ 'z') || ('A' ≤ c && c ≤ 'Z') || ('0' ≤ c && c ≤ '9')

/-- Lower-case ASCII letters and digits, the class `[a-z0-9]`. -/
def isLowerAlnum (c : Char) : Bool :=
  ('a' ≤ c && c ≤ 'z') || ('0' ≤ c && c ≤ '9')

/-- The pieces of a list of characters between the occurrences of `sep`. -/
def fields (sep : Char) : List Char → List (List Char)
  | [] => [[]]
  | c :: cs =>
    if c == sep then [] :: fields sep cs
    else
      match fields sep cs with
      | [] => [[c]]
      | f :: fs => (c :: f) :: fs

/-- The library's pattern `^(\d+\.){3}\d+$`. -/
def ipAddress (s : List Char) : Bool :=
  (fields '.' s).length == 4 &&
    (fields '.' s).all (fun f => !f.isEmpty && f.all (fun c => '0' ≤ c && c ≤ '9'))

/-- Whether `a` is directly followed by `b` somewhere in the list. -/
def hasPair (a b : Char) : List Char → Bool
  | x :: y :: rest => (x == a && y == b) || hasPair a b (y :: rest)
  | _ => false

/-- A pattern `^F M{1,61} F$`: first and last character in `F`, between them
one to sixty-one characters in `M`. -/
def matchName (F M : Char → Bool) (s : List Char) : Bool :=
  match s with
  | [] => false
  | c :: rest =>
    match rest.reverse with
    | [] => false
    | l :: mid => F c && F l && decide (1 ≤ mid.length) && decide (mid.length ≤ 61) && mid.all M

/-- The library's `checkBucketNameCommon`: the error, if the name is refused. -/
def checkBucketNameCommon (bucketName : String) (strict : Bool) : Option String :=
  if bucketName.data.all unicodeIsSpace then
    some "Bucket name cannot be empty"
  else if bucketName.utf8ByteSize < 3 then
    some "Bucket name cannot be smaller than 3 characters"
  else if bucketName.utf8ByteSize > 63 then
    some "Bucket name cannot be greater than 63 characters"
  else if ipAddress bucketName.data then
    some "Bucket name cannot be an ip address"
  else if hasPair '.' '.' bucketName.data || hasPair '.' '-' bucketName.data ||
      hasPair '-' '.' bucketName.data then
    some "Bucket name contains invalid characters"
  else if strict then
    if matchName isLowerAlnum (fun c => isLowerAlnum c || c == '.' || c == '-')
        bucketName.data then none
    else some "Bucket name contains invalid characters"
  else
    if matchName isAlnum (fun c => isAlnum c || c == '.' || c == '-' || c == '_' || c == ':')
        bucketName.data then none
    else some "Bucket name contains invalid characters"

/-- The library's `s3utils.CheckValidBucketName`. -/
def CheckValidBucketName (bucketName : String) : Option String :=
  checkBucketNameCommon bucketName false

/-- The library's `s3utils.CheckValidBucketNameStrict`. -/
def CheckValidBucketNameStrict (bucketName : String) : Option String :=
  checkBucketNameCommon bucketName true

/-- The library's `s3utils.CheckValidObjectName` (a Lean string is always
valid UTF-8, so that test of the library is not needed). -/
def CheckValidObjectName (objectName : String) : Option String :=
  if objectName.data.all unicodeIsSpace then
    some "Object name cannot be empty"
  else if objectName.utf8ByteSize > 1024 then
    some "Object name cannot be greater than 1024 characters"
  else none

/-- The validation `PutObject`, `GetObject` and `RemoveObject` make before any
request: the bucket name, then the object name. -/
def checkNames (bucketName objectName : String) : Option String :=
  match CheckValidBucketName bucketName with
  | some err => some err
  | none => CheckValidObjectName objectName

/-- State of the modelled object store. -/
structure ObjectStore where
  buckets : List String
  objects : List ((String × String) × String)
  deriving DecidableEq, Repr

/-- Content stored at (bucket, object name), if any. -/
def ObjectStore.lookup (s : ObjectStore) (bucketName objectName : String) : Option String :=
  s.objects.lookup (bucketName, objectName)

/-- The entries of an association list whose key is not `k`. -/
def dropKey (k : String × String) (l : List ((String × String) × String)) :
    List ((String × String) × String) :=
  l.filter (fun e => e.1 != k)

/-- The client methods over the map model.  A name the validation refuses is
answered with the validation error and the store is left as it was. -/
def mapAPI : MinioAPI ObjectStore where
  MakeBucket := fun _ bucketName _ s =>
    match CheckValidBucketNameStrict bucketName with
    | some err => (some err, s)
    | none =>
      if bucketName ∈ s.buckets then
        (some "Your previous request to create the named bucket succeeded and you already own it.",
          s)
      else (none, { s with buckets := bucketName :: s.buckets })
  PutObject := fun _ bucketName objectName data _ s =>
    match checkNames bucketName objectName with
    | some err => (some err, s)
    | none =>
      if bucketName ∈ s.buckets then
        (none, { s with objects :=
          ((bucketName, objectName), data) :: dropKey (bucketName, objectName) s.objects })
      else (some "The specified bucket does not exist", s)
  GetObject := fun _ bucketName objectName s =>
    match checkNames bucketName objectName with
    | some err => (.error err, s)
    | none =>
      match s.lookup bucketName objectName with
      | some data => (.ok ⟨data, none⟩, s)
      | none => (.ok ⟨"", some "The specified key does not exist."⟩, s)
  RemoveObject := fun _ bucketName objectName s =>
    match checkNames bucketName objectName with
    | some err => (some err, s)
    | none =>
      if bucketName ∈ s.buckets then
        (none, { s with objects := dropKey (bucketName, objectName) s.objects })
      else (some "The specified bucket does not exist", s)
  RemoveBucket := fun _ bucketName s =>
    match CheckValidBucketName bucketName with
    | some err => (some err, s)
    | none =>
      if bucketName ∈ s.buckets then
        if s.objects.any (fun e => e.1.1 == bucketName) then
          (some "The bucket you tried to delete is not empty", s)
        else (none, { s with buckets := s.buckets.filter (fun b => b != bucketName) })
      else (some "The specified bucket does not exist", s)

/-- The empty object store on which no call has been made yet. -/
def emptyRemote : Remote ObjectStore :=
  ⟨⟨[], []⟩, []⟩

/-! ## A concrete platform, for evaluating the constructor -/

/-- ASCII white space. -/
def isSpace (c : Char) : Bool :=
  c == ' ' || c == '\t' || c == '\n' || c == '\r'

/-- Removal of leading and trailing ASCII white space (what
`strings.TrimSpace` does on ASCII text). -/
def trimSpaceASCII (s : String) : String :=
  ⟨((s.data.dropWhile isSpace).reverse.dropWhile isSpace).reverse⟩

/-- Joining a directory and a file name with exactly one slash (what
`path.Join` does on a clean directory path and a plain file name). -/
def joinDir (dir name : String) : String :=
  ⟨(dir.data.reverse.dropWhile (fun c => c == '/')).reverse ++ '/' :: name.data⟩

/-- A platform given by the list of set environment variables and the list of
readable files with their content; `minio.New` rejects only the empty
endpoint. -/
def platformOf (env files : List (String × String)) : Platform where
  LookupEnv := fun name => env.lookup name
  ReadFile := fun path =>
    match files.lookup path with
    | some content => .ok content
    | none => .error (Sprintf "open %s: no such file or directory" [path])
  Join := joinDir
  TrimSpace := trimSpaceASCII
  New := fun endpoint accessKeyID secretAccessKey secure =>
    if endpoint == "" then .error "Endpoint:  does not follow ip address or domain name standards."
    else .ok ⟨endpoint, accessKeyID, secretAccessKey, secure⟩

/-- Environment of the scenario: only `s3_url` is set. -/
def demoEnv : List (String × String) :=
  [("s3_url", "localhost:9000")]

/-- Both secret files are present. -/
def demoPlatform : Platform :=
  platformOf demoEnv
    [("/var/openfaas/secrets/s3-access-key", "minio\n"),
     ("/var/openfaas/secrets/s3-secret-key", "minio123\n")]

/-- The file `s3-secret-key` is missing, the file `s3-access-key` is present. -/
def noSecretKeyPlatform : Platform :=
  platformOf demoEnv [("/var/openfaas/secrets/s3-access-key", "minio\n")]

/-- The client the constructor builds on `demoPlatform`. -/
def demoClient : Client :=
  ⟨"localhost:9000", "minio", "minio123", false⟩

/-- The handle the constructor returns on `demoPlatform`, before `Init`. -/
def demoStore : MinioDataStore :=
  { region := "us-east-1", bucketName := "", flowName := "", requestId := "",
    minioClient := some demoClient }

/-! ## Sequences of operations on one handle -/

/-- One method call on the handle. -/
inductive Op where
  | Init (flowName requestId : String)
  | Set (key value : String)
  | Get (key : String)
  | Del (key : String)
  | Cleanup
  deriving DecidableEq, Repr

/-- The handle and the remote store after one method call; `none` when the
call panics. -/
def step (api : MinioAPI σ) (op : Op) (minioStore : MinioDataStore) (w : Remote σ) :
    Option (MinioDataStore × Remote σ) :=
  match op with
  | .Init flowName requestId =>
    let o := Init api minioStore flowName requestId w
    some (o.store, o.remote)
  | .Set key value =>
    let o := Set api minioStore key value w
    some (o.store, o.remote)
  | .Get key =>
    let o := Get api minioStore key w
    some (o.store, o.remote)
  | .Del key =>
    let o := Del api minioStore key w
    some (o.store, o.remote)
  | .Cleanup =>
    match Cleanup api minioStore w with
    | some o => some (o.store, o.remote)
    | none => none

/-- The handle and the remote store after a sequence of method calls. -/
def run (api : MinioAPI σ) : List Op → MinioDataStore → Remote σ →
    Option (MinioDataStore × Remote σ)
  | [], minioStore, w => some (minioStore, w)
  | op :: ops, minioStore, w =>
    match step api op minioStore w with
    | some (minioStore', w') => run api ops minioStore' w'
    | none => none

/-- Data operations that neither write nor delete key `k`: `Get` of any key,
`Set` and `Del` of other keys. -/
def Op.leaves (k : String) : Op → Bool
  | .Set key _ => key != k
  | .Del key => key != k
  | .Get _ => true
  | .Init _ _ => false
  | .Cleanup => false

/-- Operations that do not re-initialise the handle with other identifiers:
everything except an `Init` whose arguments differ from `(f, r)`. -/
def Op.keepsIds (f r : String) : Op → Bool
  | .Init flowName requestId => flowName == f && requestId == r
  | _ => true

/-! ## The scenario of the specification on the map model -/

/-- The call `Init("demo", "req1")` on the fresh handle and the empty store. -/
def scenarioInit : Outcome ObjectStore (Option String) :=
  Init mapAPI demoStore "demo" "req1" emptyRemote

/-- Then `Set("x", "hello")`. -/
def scenarioSet : Outcome ObjectStore (Option String) :=
  Set mapAPI scenarioInit.store "x" "hello" scenarioInit.remote

/-- Then `Del("x")`. -/
def scenarioDel : Outcome ObjectStore (Option String) :=
  Del mapAPI scenarioSet.store "x" scenarioSet.remote

/-- Then `Get("x")`. -/
def scenarioGet : Outcome ObjectStore (String × Option String) :=
  Get mapAPI scenarioDel.store "x" scenarioDel.remote

/-! ## Lemmas on formatting -/

theorem Sprintf_nil_notInitialized :
    Sprintf "minio client not initialized, use GetMinioDataStore()" [] =
      "minio client not initialized, use GetMinioDataStore()" := by
  rfl

theorem Sprintf_bucket (f r : String) :
    Sprintf "faasflow-%s-%s" [f, r] = "faasflow-" ++ f ++ "-" ++ r := by
  apply String.ext
  simp [Sprintf, sprintfAux, String.data_append]

theorem Sprintf_creating (name e : String) :
    Sprintf "error creating: %s, error: %s" [name, e] =
      "error creating: " ++ name ++ ", error: " ++ e := by
  apply String.ext
  simp [Sprintf, sprintfAux, String.data_append]

theorem Sprintf_writing (path e : String) :
    Sprintf "error writing: %s, error: %s" [path, e] =
      "error writing: " ++ path ++ ", error: " ++ e := by
  apply String.ext
  simp [Sprintf, sprintfAux, String.data_append]

theorem Sprintf_reading (path e : String) :
    Sprintf "error reading: %s, error: %s" [path, e] =
      "error reading: " ++ path ++ ", error: " ++ e := by
  apply String.ext
  simp [Sprintf, sprintfAux, String.data_append]

theorem Sprintf_removing (path e : String) :
    Sprintf "error removing: %s, error: %s" [path, e] =
      "error removing: " ++ path ++ ", error: " ++ e := by
  apply String.ext
  simp [Sprintf, sprintfAux, String.data_append]

theorem getPath_eq (bucket key : String) :
    getPath bucket key = bucket ++ "/key/" ++ key ++ ".value" := by
  apply String.ext
  simp [getPath, Sprintf, sprintfAux, String.data_append]

theorem getPath_injective (bucket k k' : String) (h : getPath bucket k = getPath bucket k') :
    k = k' := by
  rw [getPath_eq, getPath_eq] at h
  have hd := congrArg String.data h
  simp only [String.data_append, List.append_assoc] at hd
  have h1 := List.append_cancel_left hd
  have h2 := List.append_cancel_left h1
  have h3 := List.append_cancel_right h2
  exact String.ext h3

theorem errorf_ne_notInitialized (op path e : String)
    (hop : op = "error writing: %s, error: %s" ∨ op = "error reading: %s, error: %s" ∨
      op = "error removing: %s, error: %s") :
    Sprintf op [path, e] ≠ "minio client not initialized, use GetMinioDataStore()" := by
  intro h
  have hd := congrArg String.data h
  rcases hop with rfl | rfl | rfl <;> simp [Sprintf, sprintfAux] at hd

/-! ## The methods in terms of the calls on the client

On a handle with a client, each method is one call of the client with the
arguments shown, the answer of that call decides the returned error, and the
remote state is the one that call leaves. -/

theorem Init_eq (api : MinioAPI σ) (h : MinioDataStore) (c : Client) (f r : String)
    (w : Remote σ) (hc : h.minioClient = some c) :
    Init api h f r w =
      ⟨(api.MakeBucket c ("faasflow-" ++ f ++ "-" ++ r) h.region w.state).1.map
          (fun e => "error creating: " ++ ("faasflow-" ++ f ++ "-" ++ r) ++ ", error: " ++ e),
        { h with flowName := f, requestId := r, bucketName := "faasflow-" ++ f ++ "-" ++ r },
        ⟨(api.MakeBucket c ("faasflow-" ++ f ++ "-" ++ r) h.region w.state).2,
          w.calls ++ [Call.MakeBucket ("faasflow-" ++ f ++ "-" ++ r) h.region]⟩⟩ := by
  unfold Init
  simp only [hc, Remote.MakeBucket, Sprintf_bucket, Sprintf_creating]
  cases (api.MakeBucket c ("faasflow-" ++ f ++ "-" ++ r) h.region w.state).1 <;> rfl

theorem Set_eq (api : MinioAPI σ) (h : MinioDataStore) (c : Client) (k v : String)
    (w : Remote σ) (hc : h.minioClient = some c) :
    Set api h k v w =
      ⟨(api.PutObject c h.bucketName (getPath h.bucketName k) v v.utf8ByteSize w.state).1.map
          (fun e => "error writing: " ++ getPath h.bucketName k ++ ", error: " ++ e),
        h,
        ⟨(api.PutObject c h.bucketName (getPath h.bucketName k) v v.utf8ByteSize w.state).2,
          w.calls ++ [Call.PutObject h.bucketName (getPath h.bucketName k) v v.utf8ByteSize]⟩⟩ := by
  unfold Set
  simp only [hc, Remote.PutObject, Sprintf_writing]
  cases (api.PutObject c h.bucketName (getPath h.bucketName k) v v.utf8ByteSize w.state).1 <;> rfl

theorem Get_eq (api : MinioAPI σ) (h : MinioDataStore) (c : Client) (k : String)
    (w : Remote σ) (hc : h.minioClient = some c) :
    Get api h k w =
      ⟨match (api.GetObject c h.bucketName (getPath h.bucketName k) w.state).1 with
        | .error e => ("", some ("error reading: " ++ getPath h.bucketName k ++ ", error: " ++ e))
        | .ok obj => (obj.data, none),
        h,
        ⟨(api.GetObject c h.bucketName (getPath h.bucketName k) w.state).2,
          w.calls ++ [Call.GetObject h.bucketName (getPath h.bucketName k)]⟩⟩ := by
  unfold Get
  simp only [hc, Remote.GetObject, Sprintf_reading]
  cases (api.GetObject c h.bucketName (getPath h.bucketName k) w.state).1 <;> rfl

theorem Del_eq (api : MinioAPI σ) (h : MinioDataStore) (c : Client) (k : String)
    (w : Remote σ) (hc : h.minioClient = some c) :
    Del api h k w =
      ⟨(api.RemoveObject c h.bucketName (getPath h.bucketName k) w.state).1.map
          (fun e => "error removing: " ++ getPath h.bucketName k ++ ", error: " ++ e),
        h,
        ⟨(api.RemoveObject c h.bucketName (getPath h.bucketName k) w.state).2,
          w.calls ++ [Call.RemoveObject h.bucketName (getPath h.bucketName k)]⟩⟩ := by
  unfold Del
  simp only [hc, Remote.RemoveObject, Sprintf_removing]
  cases (api.RemoveObject c h.bucketName (getPath h.bucketName k) w.state).1 <;> rfl

theorem Cleanup_eq (api : MinioAPI σ) (h : MinioDataStore) (c : Client)
    (w : Remote σ) (hc : h.minioClient = some c) :
    Cleanup api h w =
      some ⟨(api.RemoveBucket c h.bucketName w.state).1.map
          (fun e => "error removing: " ++ h.bucketName ++ ", error: " ++ e),
        h,
        ⟨(api.RemoveBucket c h.bucketName w.state).2,
          w.calls ++ [Call.RemoveBucket h.bucketName]⟩⟩ := by
  unfold Cleanup
  simp only [hc, Remote.RemoveBucket, Sprintf_removing]
  cases (api.RemoveBucket c h.bucketName w.state).1 <;> rfl

/-! ## Lemmas on the map model -/

theorem lookup_dropKey (k k' : String × String) (l : List ((String × String) × String)) :
    (dropKey k' l).lookup k = if k = k' then none else l.lookup k := by
  induction l with
  | nil => simp [dropKey]
  | cons e l ih =>
    obtain ⟨a, b⟩ := e
    unfold dropKey at ih ⊢
    by_cases hk : a = k'
    · subst hk
      by_cases hka : k = a
      · simp [List.filter_cons, hka] at ih ⊢
        exact ih
      · have : (k == a) = false := by simpa using hka
        simp [List.filter_cons, List.lookup_cons, hka, this] at ih ⊢
        exact ih
    · by_cases hka : k = a
      · subst hka
        simp [List.filter_cons, List.lookup_cons, hk]
      · have : (k == a) = false := by simpa using hka
        simp only [List.filter_cons, bne_iff_ne, ne_eq, hk, not_false_eq_true, decide_True,
          if_true, List.lookup_cons, this]
        exact ih

/-- In the map model a successful `Set` means the names passed the validation
and leaves the value at the derived path. -/
theorem Set_map_stores (h : MinioDataStore) (c : Client) (w : Remote ObjectStore)
    (k v : String) (hc : h.minioClient = some c) (hset : (Set mapAPI h k v w).ret = none) :
    (Set mapAPI h k v w).store = h ∧
      checkNames h.bucketName (getPath h.bucketName k) = none ∧
      (Set mapAPI h k v w).remote.state.lookup h.bucketName (getPath h.bucketName k) = some v := by
  rw [Set_eq mapAPI h c k v w hc] at hset ⊢
  simp only [mapAPI] at hset ⊢
  cases hn : checkNames h.bucketName (getPath h.bucketName k) with
  | some e => simp [hn] at hset
  | none =>
    by_cases hb : h.bucketName ∈ w.state.buckets
    · simp [hb, ObjectStore.lookup]
    · simp [hn, hb] at hset

/-- In the map model `Get` returns the stored value without error. -/
theorem Get_map_present (h : MinioDataStore) (c : Client) (w : Remote ObjectStore)
    (k v : String) (hc : h.minioClient = some c)
    (hn : checkNames h.bucketName (getPath h.bucketName k) = none)
    (hv : w.state.lookup h.bucketName (getPath h.bucketName k) = some v) :
    (Get mapAPI h k w).ret = (v, none) := by
  rw [Get_eq mapAPI h c k w hc]
  simp only [mapAPI, hn, hv]

/-- In the map model `Get` of a missing object returns the empty string
without error. -/
theorem Get_map_absent (h : MinioDataStore) (c : Client) (w : Remote ObjectStore)
    (k : String) (hc : h.minioClient = some c)
    (hn : checkNames h.bucketName (getPath h.bucketName k) = none)
    (hv : w.state.lookup h.bucketName (getPath h.bucketName k) = none) :
    (Get mapAPI h k w).ret = ("", none) := by
  rw [Get_eq mapAPI h c k w hc]
  simp only [mapAPI, hn, hv]

/-- In the map model a successful `Del` means the names passed the validation
and leaves no object at the derived path. -/
theorem Del_map_removes (h : MinioDataStore) (c : Client) (w : Remote ObjectStore)
    (k : String) (hc : h.minioClient = some c) (hdel : (Del mapAPI h k w).ret = none) :
    (Del mapAPI h k w).store = h ∧
      checkNames h.bucketName (getPath h.bucketName k) = none ∧
      (Del mapAPI h k w).remote.state.lookup h.bucketName (getPath h.bucketName k) = none := by
  rw [Del_eq mapAPI h c k w hc] at hdel ⊢
  simp only [mapAPI] at hdel ⊢
  cases hn : checkNames h.bucketName (getPath h.bucketName k) with
  | some e => simp [hn] at hdel
  | none =>
    by_cases hb : h.bucketName ∈ w.state.buckets
    · simp [hb, ObjectStore.lookup, lookup_dropKey]
    · simp [hn, hb] at hdel

/-- A data operation that leaves key `k` alone keeps the handle and the value
stored for `k`. -/
theorem step_leaves (h : MinioDataStore) (c : Client) (w : Remote ObjectStore)
    (k v : String) (op : Op) (hc : h.minioClient = some c) (hl : op.leaves k = true)
    (hv : w.state.lookup h.bucketName (getPath h.bucketName k) = some v) :
    ∃ w', step mapAPI op h w = some (h, w') ∧
      w'.state.lookup h.bucketName (getPath h.bucketName k) = some v := by
  cases op with
  | Init f r => simp [Op.leaves] at hl
  | Cleanup => simp [Op.leaves] at hl
  | Get key =>
    refine ⟨(Get mapAPI h key w).remote, ?_, ?_⟩
    · simp only [step, Get_eq mapAPI h c key w hc]
    · rw [Get_eq mapAPI h c key w hc]
      simp only [mapAPI]
      cases checkNames h.bucketName (getPath h.bucketName key) with
      | some e => exact hv
      | none =>
        cases w.state.lookup h.bucketName (getPath h.bucketName key) <;> exact hv
  | Set key value =>
    have hne : (h.bucketName, getPath h.bucketName k) ≠ (h.bucketName, getPath h.bucketName key) := by
      intro he
      have := getPath_injective _ _ _ (Prod.mk.inj he).2
      simp [Op.leaves, this] at hl
    refine ⟨(Set mapAPI h key value w).remote, ?_, ?_⟩
    · simp only [step, Set_eq mapAPI h c key value w hc]
    · rw [Set_eq mapAPI h c key value w hc]
      simp only [mapAPI]
      cases checkNames h.bucketName (getPath h.bucketName key) with
      | some e => exact hv
      | none =>
        by_cases hb : h.bucketName ∈ w.state.buckets
        · have hbeq : ((h.bucketName, getPath h.bucketName k) ==
              (h.bucketName, getPath h.bucketName key)) = false := by simpa using hne
          simp only [hb, if_true, ObjectStore.lookup, List.lookup_cons, hbeq, lookup_dropKey,
            hne, if_false]
          exact hv
        · simp only [hb, if_false]
          exact hv
  | Del key =>
    have hne : (h.bucketName, getPath h.bucketName k) ≠ (h.bucketName, getPath h.bucketName key) := by
      intro he
      have := getPath_injective _ _ _ (Prod.mk.inj he).2
      simp [Op.leaves, this] at hl
    refine ⟨(Del mapAPI h key w).remote, ?_, ?_⟩
    · simp only [step, Del_eq mapAPI h c key w hc]
    · rw [Del_eq mapAPI h c key w hc]
      simp only [mapAPI]
      cases checkNames h.bucketName (getPath h.bucketName key) with
      | some e => exact hv
      | none =>
        by_cases hb : h.bucketName ∈ w.state.buckets
        · simp only [hb, if_true, ObjectStore.lookup, lookup_dropKey, hne, if_false]
          exact hv
        · simp only [hb, if_false]
          exact hv

/-- A sequence of data operations that leave key `k` alone keeps the handle
and the value stored for `k`. -/
theorem run_leaves (ops : List Op) (h : MinioDataStore) (c : Client) (w : Remote ObjectStore)
    (k v : String) (hc : h.minioClient = some c) (hl : ∀ op ∈ ops, op.leaves k = true)
    (hv : w.state.lookup h.bucketName (getPath h.bucketName k) = some v) :
    ∃ w', run mapAPI ops h w = some (h, w') ∧
      w'.state.lookup h.bucketName (getPath h.bucketName k) = some v := by
  induction ops generalizing w with
  | nil => exact ⟨w, rfl, hv⟩
  | cons op ops ih =>
    obtain ⟨w1, hstep, hv1⟩ :=
      step_leaves h c w k v op hc (hl op (List.mem_cons_self _ _)) hv
    obtain ⟨w2, hrun, hv2⟩ :=
      ih w1 (fun o ho => hl o (List.mem_cons_of_mem _ ho)) hv1
    exact ⟨w2, by simp only [run, hstep, hrun], hv2⟩

/-- `Init` keeps the client of the handle. -/
theorem Init_minioClient (api : MinioAPI σ) (h : MinioDataStore) (f r : String) (w : Remote σ) :
    (Init api h f r w).store.minioClient = h.minioClient := by
  cases hc : h.minioClient with
  | none => simp [Init, hc]
  | some c => rw [Init_eq api h c f r w hc, hc]

/-- In the map model, after a successful `Del` of a key, `Get` of that key
returns the empty string and no error. -/
theorem Del_then_Get_map (h : MinioDataStore) (c : Client) (w : Remote ObjectStore)
    (k : String) (hc : h.minioClient = some c) (hdel : (Del mapAPI h k w).ret = none) :
    (Get mapAPI (Del mapAPI h k w).store k (Del mapAPI h k w).remote).ret = ("", none) := by
  obtain ⟨hs, hn, hl⟩ := Del_map_removes h c w k hc hdel
  rw [hs]
  exact Get_map_absent h c _ k hc hn hl

/-! ## Claims -/

/-- C1: round trip on the map model of the object store.  For every handle
with a client on which `Init(f, r)` has succeeded, every key `k` and value `v`
and every state `w` of the store: if `Set(k, v)` returns no error, then after
any sequence of intervening data operations that neither set nor delete `k`
(`Get` of any key, `Set` and `Del` of other keys, whatever their outcome) the
run completes with the same handle and `Get(k)` returns exactly `v` and no
error. -/
theorem Set_Get_roundtrip (h0 : MinioDataStore) (c : Client) (w0 w : Remote ObjectStore)
    (f r k v : String) (ops : List Op)
    (hc : h0.minioClient = some c)
    (_hinit : (Init mapAPI h0 f r w0).ret = none)
    (hset : (Set mapAPI (Init mapAPI h0 f r w0).store k v w).ret = none)
    (hops : ∀ op ∈ ops, op.leaves k = true) :
    ∃ w', run mapAPI ops (Set mapAPI (Init mapAPI h0 f r w0).store k v w).store
        (Set mapAPI (Init mapAPI h0 f r w0).store k v w).remote
          = some ((Init mapAPI h0 f r w0).store, w') ∧
      (Get mapAPI (Init mapAPI h0 f r w0).store k w').ret = (v, none) := by
  have hc1 : (Init mapAPI h0 f r w0).store.minioClient = some c := by
    rw [Init_minioClient]
    exact hc
  obtain ⟨hs, hn, hl⟩ := Set_map_stores _ c w k v hc1 hset
  rw [hs]
  obtain ⟨w', hrun, hv⟩ := run_leaves ops _ c _ k v hc1 hops hl
  exact ⟨w', hrun, Get_map_present _ c w' k v hc1 hn hv⟩

/-- Witness for C1: the scenario `Init("demo","req1")`, `Set("x","hello")`,
then `Set("y","other")`, `Get("x")`, `Del("y")`, then `Get("x")`. -/
theorem Set_Get_roundtrip_witness :
    (Init mapAPI demoStore "demo" "req1" emptyRemote).ret = none ∧
    (Set mapAPI (Init mapAPI demoStore "demo" "req1" emptyRemote).store "x" "hello"
        (Init mapAPI demoStore "demo" "req1" emptyRemote).remote).ret = none ∧
    ∃ w', run mapAPI [Op.Set "y" "other", Op.Get "x", Op.Del "y"]
        (Set mapAPI (Init mapAPI demoStore "demo" "req1" emptyRemote).store "x" "hello"
          (Init mapAPI demoStore "demo" "req1" emptyRemote).remote).store
        (Set mapAPI (Init mapAPI demoStore "demo" "req1" emptyRemote).store "x" "hello"
          (Init mapAPI demoStore "demo" "req1" emptyRemote).remote).remote
          = some ((Init mapAPI demoStore "demo" "req1" emptyRemote).store, w') ∧
      (Get mapAPI (Init mapAPI demoStore "demo" "req1" emptyRemote).store "x" w').ret
        = ("hello", none) :=
  ⟨by decide, by decide,
    Set_Get_roundtrip demoStore demoClient emptyRemote
      (Init mapAPI demoStore "demo" "req1" emptyRemote).remote "demo" "req1" "x" "hello"
      [Op.Set "y" "other", Op.Get "x", Op.Del "y"] rfl (by decide) (by decide) (by decide)⟩

/-- C4 (the code departs from the claim): on the map model, where a missing
object reports its failure only when its content is read, the scenario
`Init("demo","req1")`, `Set("x","hello")`, `Del("x")` succeeds at every step
and the following `Get("x")` returns the empty string with no error, not a
read error. -/
theorem Get_after_Del_returns_no_error :
    scenarioInit.ret = none ∧ scenarioSet.ret = none ∧ scenarioDel.ret = none ∧
      scenarioDel.remote.state.lookup "faasflow-demo-req1" "faasflow-demo-req1/key/x.value" = none ∧
      scenarioGet.ret = ("", none) := by
  decide

/-! ### The not-initialized guard -/

/-- C2 (amended): the not-initialized guard of `Set`, `Get` and `Del` tests the
client, not the bucket name.  On a handle without client each of the three
fails with the not-initialized error, makes no call on the client and leaves
handle and store as they were, whatever the client library.  On a handle with
a client (such as the one the constructor returns, whose bucket name is still
empty) each makes exactly one call on the client (`PutObject`, `GetObject`,
`RemoveObject`) with the handle's bucket name and the derived path, returns
what that call answers (its error wrapped as a write, read or removal error),
leaves the store as that call leaves it, and never returns the
not-initialized error. -/
theorem data_ops_guard_client_only (api : MinioAPI σ) (h : MinioDataStore) (k v : String)
    (w : Remote σ) :
    (h.minioClient = none →
      Set api h k v w =
          ⟨some "minio client not initialized, use GetMinioDataStore()", h, w⟩ ∧
        Get api h k w =
          ⟨("", some "minio client not initialized, use GetMinioDataStore()"), h, w⟩ ∧
        Del api h k w =
          ⟨some "minio client not initialized, use GetMinioDataStore()", h, w⟩) ∧
    (∀ c, h.minioClient = some c →
      ((Set api h k v w).ret ≠ some "minio client not initialized, use GetMinioDataStore()" ∧
        (Set api h k v w).ret =
          (api.PutObject c h.bucketName (getPath h.bucketName k) v v.utf8ByteSize w.state).1.map
            (fun e => "error writing: " ++ getPath h.bucketName k ++ ", error: " ++ e) ∧
        (Set api h k v w).remote.state =
          (api.PutObject c h.bucketName (getPath h.bucketName k) v v.utf8ByteSize w.state).2 ∧
        (Set api h k v w).remote.calls = w.calls ++
          [Call.PutObject h.bucketName (getPath h.bucketName k) v v.utf8ByteSize]) ∧
      ((Get api h k w).ret.2 ≠ some "minio client not initialized, use GetMinioDataStore()" ∧
        (Get api h k w).ret =
          (match (api.GetObject c h.bucketName (getPath h.bucketName k) w.state).1 with
            | .error e =>
              ("", some ("error reading: " ++ getPath h.bucketName k ++ ", error: " ++ e))
            | .ok obj => (obj.data, none)) ∧
        (Get api h k w).remote.state =
          (api.GetObject c h.bucketName (getPath h.bucketName k) w.state).2 ∧
        (Get api h k w).remote.calls = w.calls ++
          [Call.GetObject h.bucketName (getPath h.bucketName k)]) ∧
      ((Del api h k w).ret ≠ some "minio client not initialized, use GetMinioDataStore()" ∧
        (Del api h k w).ret =
          (api.RemoveObject c h.bucketName (getPath h.bucketName k) w.state).1.map
            (fun e => "error removing: " ++ getPath h.bucketName k ++ ", error: " ++ e) ∧
        (Del api h k w).remote.state =
          (api.RemoveObject c h.bucketName (getPath h.bucketName k) w.state).2 ∧
        (Del api h k w).remote.calls = w.calls ++
          [Call.RemoveObject h.bucketName (getPath h.bucketName k)])) := by
  refine ⟨fun hn => ?_, fun c hc => ⟨⟨?_, ?_⟩, ⟨?_, ?_⟩, ⟨?_, ?_⟩⟩⟩
  · simp only [Set, Get, Del, hn, Sprintf_nil_notInitialized, and_self]
  · rw [Set_eq api h c k v w hc]
    cases (api.PutObject c h.bucketName (getPath h.bucketName k) v v.utf8ByteSize w.state).1 with
    | none => simp
    | some e =>
      intro he
      have he' : "error writing: " ++ getPath h.bucketName k ++ ", error: " ++ e =
          "minio client not initialized, use GetMinioDataStore()" := Option.some.inj he
      rw [← Sprintf_writing] at he'
      exact errorf_ne_notInitialized _ _ _ (Or.inl rfl) he'
  · rw [Set_eq api h c k v w hc]
    exact ⟨rfl, rfl, rfl⟩
  · rw [Get_eq api h c k w hc]
    cases (api.GetObject c h.bucketName (getPath h.bucketName k) w.state).1 with
    | ok obj => simp
    | error e =>
      intro he
      have he' : "error reading: " ++ getPath h.bucketName k ++ ", error: " ++ e =
          "minio client not initialized, use GetMinioDataStore()" := Option.some.inj he
      rw [← Sprintf_reading] at he'
      exact errorf_ne_notInitialized _ _ _ (Or.inr (Or.inl rfl)) he'
  · rw [Get_eq api h c k w hc]
    exact ⟨rfl, rfl, rfl⟩
  · rw [Del_eq api h c k w hc]
    cases (api.RemoveObject c h.bucketName (getPath h.bucketName k) w.state).1 with
    | none => simp
    | some e =>
      intro he
      have he' : "error removing: " ++ getPath h.bucketName k ++ ", error: " ++ e =
          "minio client not initialized, use GetMinioDataStore()" := Option.some.inj he
      rw [← Sprintf_removing] at he'
      exact errorf_ne_notInitialized _ _ _ (Or.inr (Or.inr rfl)) he'
  · rw [Del_eq api h c k w hc]
    exact ⟨rfl, rfl, rfl⟩

/-- Witness for C2 (amended): the handle without client and the handle the
constructor returns on the demo platform. -/
theorem data_ops_guard_client_only_witness :
    (Set mapAPI { demoStore with minioClient := none } "x" "hello" emptyRemote =
          ⟨some "minio client not initialized, use GetMinioDataStore()",
            { demoStore with minioClient := none }, emptyRemote⟩ ∧
        Get mapAPI { demoStore with minioClient := none } "x" emptyRemote =
          ⟨("", some "minio client not initialized, use GetMinioDataStore()"),
            { demoStore with minioClient := none }, emptyRemote⟩ ∧
        Del mapAPI { demoStore with minioClient := none } "x" emptyRemote =
          ⟨some "minio client not initialized, use GetMinioDataStore()",
            { demoStore with minioClient := none }, emptyRemote⟩) ∧
    (Set mapAPI demoStore "x" "hello" emptyRemote).ret ≠
      some "minio client not initialized, use GetMinioDataStore()" ∧
    (Set mapAPI demoStore "x" "hello" emptyRemote).remote.state =
      (mapAPI.PutObject demoClient demoStore.bucketName (getPath demoStore.bucketName "x")
        "hello" "hello".utf8ByteSize emptyRemote.state).2 ∧
    (Get mapAPI demoStore "x" emptyRemote).ret.2 ≠
      some "minio client not initialized, use GetMinioDataStore()" ∧
    (Del mapAPI demoStore "x" emptyRemote).ret ≠
      some "minio client not initialized, use GetMinioDataStore()" :=
  ⟨(data_ops_guard_client_only mapAPI { demoStore with minioClient := none } "x" "hello"
      emptyRemote).1 rfl,
    ((data_ops_guard_client_only mapAPI demoStore "x" "hello" emptyRemote).2 demoClient rfl).1.1,
    ((data_ops_guard_client_only mapAPI demoStore "x" "hello" emptyRemote).2
      demoClient rfl).1.2.2.1,
    ((data_ops_guard_client_only mapAPI demoStore "x" "hello" emptyRemote).2
      demoClient rfl).2.1.1,
    ((data_ops_guard_client_only mapAPI demoStore "x" "hello" emptyRemote).2
      demoClient rfl).2.2.1⟩

/-- C2 fails as stated: on the handle the constructor returns on the demo
platform (client present, bucket name empty, `Init` not called) `Set`, `Get`
and `Del` each call the client with the empty bucket name; the client refuses
that name and leaves the store untouched, and the three return its answer
wrapped as a write, a read and a removal error, not the not-initialized
error. -/
theorem data_ops_before_Init_reach_client :
    GetMinioDataStore demoPlatform = .ok demoStore ∧ demoStore.bucketName = "" ∧
    (Set mapAPI demoStore "x" "hello" emptyRemote).ret ≠
      some "minio client not initialized, use GetMinioDataStore()" ∧
    (Set mapAPI demoStore "x" "hello" emptyRemote).ret =
      some "error writing: /key/x.value, error: Bucket name cannot be empty" ∧
    (Set mapAPI demoStore "x" "hello" emptyRemote).remote =
      ⟨emptyRemote.state, [Call.PutObject "" "/key/x.value" "hello" 5]⟩ ∧
    (Get mapAPI demoStore "x" emptyRemote).ret =
      ("", some "error reading: /key/x.value, error: Bucket name cannot be empty") ∧
    (Get mapAPI demoStore "x" emptyRemote).remote =
      ⟨emptyRemote.state, [Call.GetObject "" "/key/x.value"]⟩ ∧
    (Del mapAPI demoStore "x" emptyRemote).ret =
      some "error removing: /key/x.value, error: Bucket name cannot be empty" ∧
    (Del mapAPI demoStore "x" emptyRemote).remote =
      ⟨emptyRemote.state, [Call.RemoveObject "" "/key/x.value"]⟩ := by
  refine ⟨rfl, rfl, by decide, by decide, rfl, by decide, rfl, by decide, rfl⟩

/-! ### Construction -/

/-- When reading `s3-access-key` fails, `connectToMinio` returns that read
error and the constructor returns no store and the error wrapped with
context. -/
theorem accessKey_error_propagates (P : Platform) (region e : String)
    (hacc : (readSecret P "s3-access-key").2 = some e) :
    connectToMinio P region = .error e ∧
      GetMinioDataStore P = .error ("Failed to initialize minio, error " ++ e) := by
  have hconn : ∀ rg, connectToMinio P rg = .error e := by
    intro rg
    unfold connectToMinio
    simp only [hacc]
  refine ⟨hconn region, ?_⟩
  unfold GetMinioDataStore
  simp only [hconn]
  congr 1
  apply String.ext
  simp [Sprintf, sprintfAux, String.data_append]

/-- When reading `s3-secret-key` fails and reading `s3-access-key` succeeds,
`connectToMinio` drops the read error and returns whatever `minio.New` returns
for the empty secret key. -/
theorem secretKey_error_dropped (P : Platform) (region e access : String)
    (hsec : readSecret P "s3-secret-key" = ("", some e))
    (hacc : readSecret P "s3-access-key" = (access, none)) :
    connectToMinio P region = P.New (P.Getenv "s3_url") access "" (tlsEnabled P) := by
  unfold connectToMinio
  simp only [hsec, hacc]

/-- C3 (the code departs from the claim): on the platform where the file
`s3-secret-key` is missing and `s3-access-key` is readable, reading the secret
key fails, yet `connectToMinio` returns a client (with the empty secret key)
and the constructor returns a store and no error. -/
theorem secretKey_read_failure_not_reported :
    readSecret noSecretKeyPlatform "s3-secret-key" =
      ("", some ("unable to read secret: /var/openfaas/secrets/s3-secret-key, error: " ++
        "open /var/openfaas/secrets/s3-secret-key: no such file or directory")) ∧
    readSecret noSecretKeyPlatform "s3-access-key" = ("minio", none) ∧
    connectToMinio noSecretKeyPlatform "us-east-1" =
      .ok ⟨"localhost:9000", "minio", "", false⟩ ∧
    GetMinioDataStore noSecretKeyPlatform =
      .ok { region := "us-east-1", bucketName := "", flowName := "", requestId := "",
            minioClient := some ⟨"localhost:9000", "minio", "", false⟩ } := by
  refine ⟨?_, ?_, ?_, ?_⟩ <;> rfl

/-! ### Bucket name and object path -/

/-- The handle after `Init` on a handle with a client. -/
theorem Init_store (api : MinioAPI σ) (h : MinioDataStore) (c : Client) (f r : String)
    (w : Remote σ) (hc : h.minioClient = some c) :
    (Init api h f r w).store =
      { h with flowName := f, requestId := r, bucketName := "faasflow-" ++ f ++ "-" ++ r } := by
  rw [Init_eq api h c f r w hc]

/-- C5: for every handle with a client and every pair of strings
`(flowName, requestId)`, `Init` sets the bucket name of the handle to
`"faasflow-" ++ flowName ++ "-" ++ requestId`, records `flowName` and
`requestId` on the handle, and calls `MakeBucket` of the client exactly once,
with that bucket name and the region of the handle: the store is left as that
call leaves it and the error of that call, if any, is returned wrapped as a
creation error.  The name is the same whatever the handle, the client library
and the state of the store it is derived with. -/
theorem Init_bucketName (api : MinioAPI σ) (h : MinioDataStore) (c : Client) (f r : String)
    (w : Remote σ) (hc : h.minioClient = some c) :
    (Init api h f r w).store.bucketName = "faasflow-" ++ f ++ "-" ++ r ∧
    (Init api h f r w).store.flowName = f ∧
    (Init api h f r w).store.requestId = r ∧
    (Init api h f r w).remote.state =
      (api.MakeBucket c ((Init api h f r w).store.bucketName) h.region w.state).2 ∧
    (Init api h f r w).ret =
      (api.MakeBucket c ((Init api h f r w).store.bucketName) h.region w.state).1.map
        (fun e => "error creating: " ++ (Init api h f r w).store.bucketName ++ ", error: " ++ e) ∧
    (Init api h f r w).remote.calls =
      w.calls ++ [Call.MakeBucket ((Init api h f r w).store.bucketName) h.region] ∧
    (∀ (τ : Type) (api' : MinioAPI τ) (h' : MinioDataStore) (c' : Client) (w' : Remote τ),
      h'.minioClient = some c' →
        (Init api' h' f r w').store.bucketName = (Init api h f r w).store.bucketName) := by
  refine ⟨?_, ?_, ?_, ?_, ?_, ?_, ?_⟩
  · rw [Init_eq api h c f r w hc]
  · rw [Init_eq api h c f r w hc]
  · rw [Init_eq api h c f r w hc]
  · rw [Init_eq api h c f r w hc]
  · rw [Init_eq api h c f r w hc]
  · rw [Init_eq api h c f r w hc]
  · intro τ api' h' c' w' hc'
    rw [Init_eq api h c f r w hc, Init_eq api' h' c' f r w' hc']

/-- Witness for C5: `Init("demo", "req1")` on the handle of the demo platform. -/
theorem Init_bucketName_witness :
    (Init mapAPI demoStore "demo" "req1" emptyRemote).store.bucketName
      = "faasflow-" ++ "demo" ++ "-" ++ "req1" ∧
    (Init mapAPI demoStore "demo" "req1" emptyRemote).store.flowName = "demo" ∧
    (Init mapAPI demoStore "demo" "req1" emptyRemote).store.requestId = "req1" ∧
    (Init mapAPI demoStore "demo" "req1" emptyRemote).remote.state =
      (mapAPI.MakeBucket demoClient
        ((Init mapAPI demoStore "demo" "req1" emptyRemote).store.bucketName)
        demoStore.region emptyRemote.state).2 ∧
    (Init mapAPI demoStore "demo" "req1" emptyRemote).ret =
      (mapAPI.MakeBucket demoClient
        ((Init mapAPI demoStore "demo" "req1" emptyRemote).store.bucketName)
        demoStore.region emptyRemote.state).1.map
        (fun e => "error creating: " ++
          (Init mapAPI demoStore "demo" "req1" emptyRemote).store.bucketName ++
            ", error: " ++ e) ∧
    (Init mapAPI demoStore "demo" "req1" emptyRemote).remote.calls =
      emptyRemote.calls ++ [Call.MakeBucket
        ((Init mapAPI demoStore "demo" "req1" emptyRemote).store.bucketName) demoStore.region] ∧
    (∀ (τ : Type) (api' : MinioAPI τ) (h' : MinioDataStore) (c' : Client) (w' : Remote τ),
      h'.minioClient = some c' →
        (Init api' h' "demo" "req1" w').store.bucketName =
          (Init mapAPI demoStore "demo" "req1" emptyRemote).store.bucketName) :=
  Init_bucketName mapAPI demoStore demoClient "demo" "req1" emptyRemote rfl

/-- C6: for every bucket name `b` and key `k`, `getPath b k` is
`b ++ "/key/" ++ k ++ ".value"`, the key being copied as it is; and on a handle
with a client, `Set`, `Get` and `Del` of the same key each call the client
once (`PutObject`, `GetObject`, `RemoveObject`), all three with the bucket
name of the handle and this same path: the store is left as that call leaves
it and the answer of that call decides what is returned. -/
theorem getPath_shared (api : MinioAPI σ) (h : MinioDataStore) (c : Client) (b k v : String)
    (w : Remote σ) (hc : h.minioClient = some c) :
    getPath b k = b ++ "/key/" ++ k ++ ".value" ∧
    ((Set api h k v w).remote.state =
        (api.PutObject c h.bucketName (h.bucketName ++ "/key/" ++ k ++ ".value") v
          v.utf8ByteSize w.state).2 ∧
      (Set api h k v w).ret =
        (api.PutObject c h.bucketName (h.bucketName ++ "/key/" ++ k ++ ".value") v
          v.utf8ByteSize w.state).1.map
          (fun e => "error writing: " ++ (h.bucketName ++ "/key/" ++ k ++ ".value") ++
            ", error: " ++ e) ∧
      (Set api h k v w).remote.calls = w.calls ++
        [Call.PutObject h.bucketName (h.bucketName ++ "/key/" ++ k ++ ".value") v
          v.utf8ByteSize]) ∧
    ((Get api h k w).remote.state =
        (api.GetObject c h.bucketName (h.bucketName ++ "/key/" ++ k ++ ".value") w.state).2 ∧
      (Get api h k w).ret =
        (match (api.GetObject c h.bucketName (h.bucketName ++ "/key/" ++ k ++ ".value")
            w.state).1 with
          | .error e =>
            ("", some ("error reading: " ++ (h.bucketName ++ "/key/" ++ k ++ ".value") ++
              ", error: " ++ e))
          | .ok obj => (obj.data, none)) ∧
      (Get api h k w).remote.calls = w.calls ++
        [Call.GetObject h.bucketName (h.bucketName ++ "/key/" ++ k ++ ".value")]) ∧
    ((Del api h k w).remote.state =
        (api.RemoveObject c h.bucketName (h.bucketName ++ "/key/" ++ k ++ ".value")
          w.state).2 ∧
      (Del api h k w).ret =
        (api.RemoveObject c h.bucketName (h.bucketName ++ "/key/" ++ k ++ ".value")
          w.state).1.map
          (fun e => "error removing: " ++ (h.bucketName ++ "/key/" ++ k ++ ".value") ++
            ", error: " ++ e) ∧
      (Del api h k w).remote.calls = w.calls ++
        [Call.RemoveObject h.bucketName (h.bucketName ++ "/key/" ++ k ++ ".value")]) := by
  refine ⟨getPath_eq b k, ?_, ?_, ?_⟩
  · rw [Set_eq api h c k v w hc, getPath_eq]
    exact ⟨rfl, rfl, rfl⟩
  · rw [Get_eq api h c k w hc, getPath_eq]
    exact ⟨rfl, rfl, rfl⟩
  · rw [Del_eq api h c k w hc, getPath_eq]
    exact ⟨rfl, rfl, rfl⟩

/-- Witness for C6: key `a/b`, whose slash is not escaped, on the handle of
the scenario after `Init("demo", "req1")`. -/
theorem getPath_shared_witness :
    getPath "faasflow-demo-req1" "a/b" = "faasflow-demo-req1" ++ "/key/" ++ "a/b" ++ ".value" ∧
    (Set mapAPI scenarioInit.store "a/b" "hello" scenarioInit.remote).remote.state =
      (mapAPI.PutObject demoClient scenarioInit.store.bucketName
        (scenarioInit.store.bucketName ++ "/key/" ++ "a/b" ++ ".value") "hello"
        "hello".utf8ByteSize scenarioInit.remote.state).2 ∧
    (Get mapAPI scenarioInit.store "a/b" scenarioInit.remote).remote.state =
      (mapAPI.GetObject demoClient scenarioInit.store.bucketName
        (scenarioInit.store.bucketName ++ "/key/" ++ "a/b" ++ ".value")
        scenarioInit.remote.state).2 ∧
    (Del mapAPI scenarioInit.store "a/b" scenarioInit.remote).remote.state =
      (mapAPI.RemoveObject demoClient scenarioInit.store.bucketName
        (scenarioInit.store.bucketName ++ "/key/" ++ "a/b" ++ ".value")
        scenarioInit.remote.state).2 ∧
    (Set mapAPI scenarioInit.store "a/b" "hello" scenarioInit.remote).remote.calls =
      scenarioInit.remote.calls ++
        [Call.PutObject scenarioInit.store.bucketName
          (scenarioInit.store.bucketName ++ "/key/" ++ "a/b" ++ ".value") "hello"
          "hello".utf8ByteSize] ∧
    (Get mapAPI scenarioInit.store "a/b" scenarioInit.remote).remote.calls =
      scenarioInit.remote.calls ++
        [Call.GetObject scenarioInit.store.bucketName
          (scenarioInit.store.bucketName ++ "/key/" ++ "a/b" ++ ".value")] ∧
    (Del mapAPI scenarioInit.store "a/b" scenarioInit.remote).remote.calls =
      scenarioInit.remote.calls ++
        [Call.RemoveObject scenarioInit.store.bucketName
          (scenarioInit.store.bucketName ++ "/key/" ++ "a/b" ++ ".value")] :=
  ⟨(getPath_shared mapAPI scenarioInit.store demoClient "faasflow-demo-req1" "a/b" "hello"
      scenarioInit.remote (by decide)).1,
    (getPath_shared mapAPI scenarioInit.store demoClient "faasflow-demo-req1" "a/b" "hello"
      scenarioInit.remote (by decide)).2.1.1,
    (getPath_shared mapAPI scenarioInit.store demoClient "faasflow-demo-req1" "a/b" "hello"
      scenarioInit.remote (by decide)).2.2.1.1,
    (getPath_shared mapAPI scenarioInit.store demoClient "faasflow-demo-req1" "a/b" "hello"
      scenarioInit.remote (by decide)).2.2.2.1,
    (getPath_shared mapAPI scenarioInit.store demoClient "faasflow-demo-req1" "a/b" "hello"
      scenarioInit.remote (by decide)).2.1.2.2,
    (getPath_shared mapAPI scenarioInit.store demoClient "faasflow-demo-req1" "a/b" "hello"
      scenarioInit.remote (by decide)).2.2.1.2.2,
    (getPath_shared mapAPI scenarioInit.store demoClient "faasflow-demo-req1" "a/b" "hello"
      scenarioInit.remote (by decide)).2.2.2.2.2⟩

/-! ### Distinct executions -/

/-- A list is split in one way only at the first occurrence of a separator. -/
theorem split_at_first (sep : Char) (x y a b : List Char) (hx : sep ∉ x) (hy : sep ∉ y)
    (h : x ++ sep :: a = y ++ sep :: b) : x = y ∧ a = b := by
  induction x generalizing y with
  | nil =>
    cases y with
    | nil => exact ⟨rfl, by simpa using h⟩
    | cons d y =>
      simp only [List.nil_append, List.cons_append, List.cons.injEq] at h
      exact absurd (h.1 ▸ List.mem_cons_self d y) hy
  | cons d x ih =>
    cases y with
    | nil =>
      simp only [List.nil_append, List.cons_append, List.cons.injEq] at h
      exact absurd (h.1 ▸ List.mem_cons_self d x) hx
    | cons d' y =>
      simp only [List.cons_append, List.cons.injEq] at h
      obtain ⟨hxy, hab⟩ := ih y (fun hm => hx (List.mem_cons_of_mem _ hm))
        (fun hm => hy (List.mem_cons_of_mem _ hm)) h.2
      exact ⟨by rw [h.1, hxy], hab⟩

/-- A list is split in one way only at the last occurrence of a separator. -/
theorem split_at_last (sep : Char) (x y a b : List Char) (ha : sep ∉ a) (hb : sep ∉ b)
    (h : x ++ sep :: a = y ++ sep :: b) : x = y ∧ a = b := by
  have hr := congrArg List.reverse h
  simp only [List.reverse_append, List.reverse_cons, List.append_assoc, List.singleton_append]
    at hr
  obtain ⟨h1, h2⟩ := split_at_first sep a.reverse b.reverse x.reverse y.reverse
    (by simpa using ha) (by simpa using hb) hr
  exact ⟨List.reverse_injective h2, List.reverse_injective h1⟩

/-- C7 (amended): when neither workflow name contains the character `-`, or
neither request identifier does, different (workflow name, request
identifier) pairs get different bucket names from `Init`. -/
theorem Init_bucketName_injective (api : MinioAPI σ) (h : MinioDataStore) (c : Client)
    (w : Remote σ) (f1 r1 f2 r2 : String) (hc : h.minioClient = some c)
    (hne : (f1, r1) ≠ (f2, r2))
    (hdash : ('-' ∉ f1.data ∧ '-' ∉ f2.data) ∨ ('-' ∉ r1.data ∧ '-' ∉ r2.data)) :
    (Init api h f1 r1 w).store.bucketName ≠ (Init api h f2 r2 w).store.bucketName := by
  rw [Init_store api h c f1 r1 w hc, Init_store api h c f2 r2 w hc]
  intro he
  have hd := congrArg String.data he
  simp only [String.data_append, List.append_assoc] at hd
  have h1 : f1.data ++ '-' :: r1.data = f2.data ++ '-' :: r2.data :=
    List.append_cancel_left hd
  have h2 : f1.data = f2.data ∧ r1.data = r2.data := by
    rcases hdash with ⟨hf1, hf2⟩ | ⟨hr1, hr2⟩
    · exact split_at_first '-' _ _ _ _ hf1 hf2 h1
    · exact split_at_last '-' _ _ _ _ hr1 hr2 h1
  exact hne (by rw [String.ext h2.1, String.ext h2.2])

/-- Witness for C7 (amended): the executions `("demo", "req1")` and
`("demo", "req2")`. -/
theorem Init_bucketName_injective_witness :
    (Init mapAPI demoStore "demo" "req1" emptyRemote).store.bucketName ≠
      (Init mapAPI demoStore "demo" "req2" emptyRemote).store.bucketName :=
  Init_bucketName_injective mapAPI demoStore demoClient emptyRemote "demo" "req1" "demo" "req2"
    rfl (by decide) (Or.inl (by decide))

/-- C7 fails as stated: the different pairs `("a-b", "c")` and `("a", "b-c")`
get the same bucket name `faasflow-a-b-c`. -/
theorem Init_bucketName_collision :
    ("a-b", "c") ≠ ("a", "b-c") ∧
    (Init mapAPI demoStore "a-b" "c" emptyRemote).store.bucketName = "faasflow-a-b-c" ∧
    (Init mapAPI demoStore "a" "b-c" emptyRemote).store.bucketName = "faasflow-a-b-c" := by
  decide

/-! ### The fields of the handle -/

/-- Any operation other than an `Init` with other identifiers keeps a handle
that `Init(f, r)` has populated. -/
theorem step_keepsIds (api : MinioAPI σ) (h : MinioDataStore) (c : Client) (f r : String)
    (op : Op) (w : Remote σ) (hc : h.minioClient = some c) (hf : h.flowName = f)
    (hr : h.requestId = r) (hb : h.bucketName = "faasflow-" ++ f ++ "-" ++ r)
    (hk : op.keepsIds f r = true) :
    ∃ w', step api op h w = some (h, w') := by
  cases op with
  | Init f' r' =>
    simp only [Op.keepsIds, Bool.and_eq_true, beq_iff_eq] at hk
    obtain ⟨rfl, rfl⟩ := hk
    refine ⟨(Init api h f' r' w).remote, ?_⟩
    simp only [step, Init_store api h c f' r' w hc]
    obtain ⟨rg, bn, fn, ri, mc⟩ := h
    simp only at hf hr hb
    rw [hf, hr, hb]
  | Set k v =>
    refine ⟨(Set api h k v w).remote, ?_⟩
    simp only [step, Set_eq api h c k v w hc]
  | Get k =>
    refine ⟨(Get api h k w).remote, ?_⟩
    simp only [step, Get_eq api h c k w hc]
  | Del k =>
    refine ⟨(Del api h k w).remote, ?_⟩
    simp only [step, Del_eq api h c k w hc]
  | Cleanup =>
    refine ⟨⟨(api.RemoveBucket c h.bucketName w.state).2,
      w.calls ++ [Call.RemoveBucket h.bucketName]⟩, ?_⟩
    simp only [step, Cleanup_eq api h c w hc]

/-- A sequence of such operations keeps the handle, and never panics. -/
theorem run_keepsIds (api : MinioAPI σ) (ops : List Op) (h : MinioDataStore) (c : Client)
    (f r : String) (w : Remote σ) (hc : h.minioClient = some c) (hf : h.flowName = f)
    (hr : h.requestId = r) (hb : h.bucketName = "faasflow-" ++ f ++ "-" ++ r)
    (hk : ∀ op ∈ ops, op.keepsIds f r = true) :
    ∃ w', run api ops h w = some (h, w') := by
  induction ops generalizing w with
  | nil => exact ⟨w, rfl⟩
  | cons op ops ih =>
    obtain ⟨w1, hstep⟩ :=
      step_keepsIds api h c f r op w hc hf hr hb (hk op (List.mem_cons_self _ _))
    obtain ⟨w2, hrun⟩ := ih w1 (fun o ho => hk o (List.mem_cons_of_mem _ ho))
    exact ⟨w2, by simp only [run, hstep, hrun]⟩

/-- C8 (amended): once `Init(f, r)` has run on a handle with a client, every
sequence of later operations on that handle in which each `Init` repeats the
identifiers `(f, r)` (`Set`, `Get`, `Del` and `Cleanup` being arbitrary,
whether they succeed or fail) runs to its end and leaves the handle as the
first `Init` left it: bucket name `"faasflow-" ++ f ++ "-" ++ r`, workflow
name `f` and request identifier `r`. -/
theorem fields_kept_after_Init (api : MinioAPI σ) (h0 : MinioDataStore) (c : Client)
    (f r : String) (w0 : Remote σ) (ops : List Op) (hc : h0.minioClient = some c)
    (hops : ∀ op ∈ ops, op.keepsIds f r = true) :
    ∃ h' w', run api ops (Init api h0 f r w0).store (Init api h0 f r w0).remote = some (h', w') ∧
      h' = (Init api h0 f r w0).store ∧
      h'.bucketName = "faasflow-" ++ f ++ "-" ++ r ∧ h'.flowName = f ∧ h'.requestId = r := by
  have hs := Init_store api h0 c f r w0 hc
  obtain ⟨w', hrun⟩ := run_keepsIds api ops (Init api h0 f r w0).store c f r
    (Init api h0 f r w0).remote (by rw [hs]; exact hc) (by rw [hs]) (by rw [hs]) (by rw [hs]) hops
  exact ⟨_, w', hrun, rfl, by rw [hs], by rw [hs], by rw [hs]⟩

/-- Witness for C8 (amended): after `Init("demo", "req1")`, the operations
`Set`, `Init("demo", "req1")` again (which fails: the bucket exists), `Get`,
`Cleanup` (which fails: the bucket is not empty), `Del`, `Cleanup`. -/
theorem fields_kept_after_Init_witness :
    ∃ h' w', run mapAPI
        [Op.Set "x" "hello", Op.Init "demo" "req1", Op.Get "x", Op.Cleanup, Op.Del "x",
          Op.Cleanup]
        (Init mapAPI demoStore "demo" "req1" emptyRemote).store
        (Init mapAPI demoStore "demo" "req1" emptyRemote).remote = some (h', w') ∧
      h' = (Init mapAPI demoStore "demo" "req1" emptyRemote).store ∧
      h'.bucketName = "faasflow-" ++ "demo" ++ "-" ++ "req1" ∧ h'.flowName = "demo" ∧
      h'.requestId = "req1" :=
  fields_kept_after_Init mapAPI demoStore demoClient "demo" "req1" emptyRemote
    [Op.Set "x" "hello", Op.Init "demo" "req1", Op.Get "x", Op.Cleanup, Op.Del "x", Op.Cleanup]
    rfl (by decide)

/-- C8 fails as stated: after `Init("a", "b")` has populated the handle, a
later `Init("c", "d")` on the same handle replaces the three fields. -/
theorem second_Init_overwrites_fields :
    (Init mapAPI demoStore "a" "b" emptyRemote).store.bucketName = "faasflow-a-b" ∧
    (Init mapAPI demoStore "a" "b" emptyRemote).store.flowName = "a" ∧
    (Init mapAPI demoStore "a" "b" emptyRemote).store.requestId = "b" ∧
    (run mapAPI [Op.Init "c" "d"] (Init mapAPI demoStore "a" "b" emptyRemote).store
        (Init mapAPI demoStore "a" "b" emptyRemote).remote).map
      (fun p => (p.1.bucketName, p.1.flowName, p.1.requestId)) =
        some ("faasflow-c-d", "c", "d") := by
  decide

/-! ### Configuration -/

/-- C9: for every environment, `tlsEnabled` returns `true` if and only if the
variable `s3_tls` is set to exactly `true` or exactly `1`; in particular it
returns `false` when the variable is unset, empty, `TRUE`, `yes` or ` 1`. -/
theorem tlsEnabled_iff (P : Platform) :
    (tlsEnabled P = true ↔
      (P.LookupEnv "s3_tls" = some "true" ∨ P.LookupEnv "s3_tls" = some "1")) ∧
    (P.LookupEnv "s3_tls" ∈ [none, some "", some "TRUE", some "yes", some " 1"] →
      tlsEnabled P = false) := by
  have hiff : tlsEnabled P = true ↔
      (P.LookupEnv "s3_tls" = some "true" ∨ P.LookupEnv "s3_tls" = some "1") := by
    unfold tlsEnabled Platform.Getenv
    cases hv : P.LookupEnv "s3_tls" with
    | none => simp
    | some v => simp
  refine ⟨hiff, fun hm => ?_⟩
  rw [← Bool.not_eq_true, hiff]
  simp only [List.mem_cons, List.mem_singleton, List.not_mem_nil, or_false] at hm
  rcases hm with h | h | h | h | h <;> rw [h] <;> decide

/-- A string has no bytes exactly when it is the empty string. -/
theorem utf8ByteSize_eq_zero (s : String) : s.utf8ByteSize = 0 ↔ s = "" := by
  obtain ⟨l⟩ := s
  cases l with
  | nil => exact ⟨fun _ => rfl, fun _ => rfl⟩
  | cons c l =>
    constructor
    · intro h
      have hpos := Char.utf8Size_pos c
      simp only [String.utf8ByteSize, String.utf8ByteSize.go] at h
      omega
    · intro h
      exact absurd (congrArg String.data h) (by simp)

/-- The function `regionName` by cases on the variable `s3_region`. -/
theorem regionName_cases (P : Platform) :
    ((P.LookupEnv "s3_region" = none ∨ P.LookupEnv "s3_region" = some "") →
      regionName P = "us-east-1") ∧
    (∀ v, P.LookupEnv "s3_region" = some v → v ≠ "" → regionName P = v) := by
  refine ⟨fun h => ?_, fun v hv hne => ?_⟩
  · have hz : "".utf8ByteSize = 0 := rfl
    rcases h with h | h <;> simp [regionName, h, hz]
  · have hz : v.utf8ByteSize ≠ 0 := fun hz => hne ((utf8ByteSize_eq_zero v).1 hz)
    simp [regionName, hv, hz]

/-- C10: for every environment, `regionName` falls back to `us-east-1` when
the variable `s3_region` is unset or set to the empty string, and returns the
value of the variable unchanged whenever it is set to a non-empty string; the
handle the constructor returns carries this region and a client, and `Init` on
that handle calls `MakeBucket` of that client with this region: the store is
left as that call leaves it and the error of that call, if any, is the one
returned wrapped. -/
theorem regionName_default (P : Platform) :
    ((P.LookupEnv "s3_region" = none ∨ P.LookupEnv "s3_region" = some "") →
      regionName P = "us-east-1") ∧
    (∀ v, P.LookupEnv "s3_region" = some v → v ≠ "" → regionName P = v) ∧
    (∀ h, GetMinioDataStore P = .ok h →
      h.region = regionName P ∧
      ∃ c, h.minioClient = some c ∧
        ∀ (τ : Type) (api : MinioAPI τ) (f r : String) (w : Remote τ),
          (Init api h f r w).remote.state =
            (api.MakeBucket c ("faasflow-" ++ f ++ "-" ++ r) (regionName P) w.state).2 ∧
          (Init api h f r w).ret =
            (api.MakeBucket c ("faasflow-" ++ f ++ "-" ++ r) (regionName P) w.state).1.map
              (fun e => "error creating: " ++ ("faasflow-" ++ f ++ "-" ++ r) ++
                ", error: " ++ e) ∧
          (Init api h f r w).remote.calls =
            w.calls ++ [Call.MakeBucket ("faasflow-" ++ f ++ "-" ++ r) (regionName P)]) := by
  refine ⟨(regionName_cases P).1, (regionName_cases P).2, fun h hh => ?_⟩
  unfold GetMinioDataStore at hh
  cases hconn : connectToMinio P (regionName P) with
  | error e => simp [hconn] at hh
  | ok c =>
    simp only [hconn, Except.ok.injEq] at hh
    subst hh
    refine ⟨rfl, c, rfl, fun τ api f r w => ?_⟩
    rw [Init_eq api _ c f r w rfl]
    exact ⟨rfl, rfl, rfl⟩

/-- Instances of C10: the demo platform leaves `s3_region` unset and gets the
default; with `s3_region` set to the empty string the default again; with
`s3_region` set to `eu-west-1` that value; and on the handle the constructor
returns on the demo platform `Init` calls `MakeBucket` with the region
`regionName` gives. -/
theorem regionName_default_witness :
    regionName demoPlatform = "us-east-1" ∧
    regionName (platformOf (("s3_region", "") :: demoEnv) []) = "us-east-1" ∧
    regionName (platformOf (("s3_region", "eu-west-1") :: demoEnv) []) = "eu-west-1" ∧
    (demoStore.region = regionName demoPlatform ∧
      ∃ c, demoStore.minioClient = some c ∧
        ∀ (τ : Type) (api : MinioAPI τ) (f r : String) (w : Remote τ),
          (Init api demoStore f r w).remote.state =
            (api.MakeBucket c ("faasflow-" ++ f ++ "-" ++ r) (regionName demoPlatform)
              w.state).2 ∧
          (Init api demoStore f r w).ret =
            (api.MakeBucket c ("faasflow-" ++ f ++ "-" ++ r) (regionName demoPlatform)
              w.state).1.map
              (fun e => "error creating: " ++ ("faasflow-" ++ f ++ "-" ++ r) ++
                ", error: " ++ e) ∧
          (Init api demoStore f r w).remote.calls =
            w.calls ++ [Call.MakeBucket ("faasflow-" ++ f ++ "-" ++ r)
              (regionName demoPlatform)]) :=
  ⟨(regionName_default demoPlatform).1 (Or.inl rfl),
    (regionName_default (platformOf (("s3_region", "") :: demoEnv) [])).1 (Or.inr rfl),
    (regionName_default (platformOf (("s3_region", "eu-west-1") :: demoEnv) [])).2.1
      "eu-west-1" rfl (by decide),
    (regionName_default demoPlatform).2.2 demoStore rfl⟩

/-- Instances of C9 on concrete environments. -/
theorem tlsEnabled_iff_witness :
    tlsEnabled (platformOf [("s3_tls", "true")] []) = true ∧
    tlsEnabled (platformOf [("s3_tls", "1")] []) = true ∧
    tlsEnabled demoPlatform = false ∧
    tlsEnabled (platformOf [("s3_tls", " 1")] []) = false :=
  ⟨(tlsEnabled_iff (platformOf [("s3_tls", "true")] [])).1.2 (Or.inl rfl),
    (tlsEnabled_iff (platformOf [("s3_tls", "1")] [])).1.2 (Or.inr rfl),
    (tlsEnabled_iff demoPlatform).2 (by decide),
    (tlsEnabled_iff (platformOf [("s3_tls", " 1")] [])).2 (by decide)⟩

end FaasFlowMinio
